import Mathlib

/-!
# TCP module of iotjs (`src/iotjs_module_tcp.cpp`)

A shallow embedding of the native TCP binding.  The C++ handlers are
translated statement by statement into a small state-and-fault monad
`Exec`.  Everything the handlers do to the outside (reactor calls, script
callback invocations, allocation and release of native objects) is appended
to a trace of `Event`s kept in the `World`, together with the heaps of live
request wrappers, live byte blocks and script buffers.  Results of the
external collaborators (libuv, the script runtime, the allocator) are
supplied by an `Env` of oracle functions, so every theorem quantifies over
all possible reactor answers.
-/

namespace iotjs

/-! ## Script values -/

/-- A script value as seen through the binding layer (`JObject`). -/
inductive JObject where
  | undefined
  | null
  | number (v : Int)
  | string (s : String)
  | function (id : Nat)
  | object (id : Nat)
  deriving DecidableEq, Repr

namespace JObject

/-- Functions are objects in the script runtime. -/
def IsObject : JObject → Bool
  | .object _ => true
  | .function _ => true
  | _ => false

def IsFunction : JObject → Bool
  | .function _ => true
  | _ => false

def IsString : JObject → Bool
  | .string _ => true
  | _ => false

def IsNumber : JObject → Bool
  | .number _ => true
  | _ => false

def GetCString : JObject → String
  | .string s => s
  | _ => ""

def GetInt32 : JObject → Int
  | .number v => v
  | _ => 0

/-- Corresponds to `JObject::Null()`. -/
def Null : JObject := .null

end JObject

/-- Corresponds to `JVal::Int(v)`: the script number holding a native integer.
The handlers only pass result codes and byte counts through, without
arithmetic, so the integer is carried unchanged. -/
def JVal.Int (v : Int) : JObject := .number v

/-- Corresponds to `JArgList::Empty()`. -/
def JArgList.Empty : List JObject := []

/-! ## Native records -/

/-- The parsed IPv4 socket address filled in by `uv_ip4_addr`. -/
structure sockaddr_in where
  sin_addr : Nat
  sin_port : Nat
  deriving DecidableEq, Repr

/-- Corresponds to `uv_buf_t`: `base` is a native address, `0` is `NULL`. -/
structure uv_buf_t where
  base : Nat
  len : Nat
  deriving DecidableEq, Repr

/-- The null pointer. -/
def NULL : Nat := 0

/-- A `TcpWrap`: the wrapper owning one `uv_tcp_t`.  `_handle` is the address
of the embedded native handle, `jnative` the script tcp object and `jholder`
the script socket the handle reports to. -/
structure TcpWrap where
  _handle : Nat
  jnative : JObject
  jholder : JObject
  deriving DecidableEq, Repr

def TcpWrap.tcp_handle (wrap : TcpWrap) : Nat := wrap._handle

/-- A `uv_stream_t*` / `uv_handle_t*` as received by the reactor callbacks:
its own address and its `data` back-pointer (`none` is `NULL`). -/
structure uv_stream_t where
  addr : Nat
  data : Option TcpWrap
  deriving DecidableEq, Repr

/-- A `uv_connect_t*` / `uv_write_t*` as received by a completion callback:
`data` is the address of the owning request wrapper (`0` is `NULL`) and
`handle` the stream the request was issued on. -/
structure uv_req_t where
  data : Nat
  handle : uv_stream_t
  deriving DecidableEq, Repr

/-- The native `Buffer` wrapper behind a script buffer object: the address of
its storage and its length. -/
structure Buffer where
  buffer : Nat
  length : Nat
  deriving DecidableEq, Repr

/-- The arguments of a native method call (`JHandlerInfo`). -/
structure JHandlerInfo where
  this : JObject
  args : List JObject
  deriving DecidableEq, Repr

namespace JHandlerInfo

def GetThis (handler : JHandlerInfo) : JObject := handler.this

def GetArgLength (handler : JHandlerInfo) : Nat := handler.args.length

def GetArg (handler : JHandlerInfo) (i : Nat) : JObject :=
  handler.args.getD i .undefined

end JHandlerInfo

/-! ## Observable events, world and environment -/

/-- Everything a handler does to its collaborators. -/
inductive Event where
  | uv_tcp_init (handle : Nat)
  | uv_tcp_bind (handle : Nat) (addr : sockaddr_in) (flags : Nat)
  | uv_tcp_connect (req : Nat) (handle : Nat) (addr : sockaddr_in)
  | uv_accept (server : Nat) (client : Nat)
  | uv_write (req : Nat) (handle : Nat) (bufs : List uv_buf_t)
  | newConnectReqWrap (req : Nat) (jcallback : JObject)
  | newWriteReqWrap (req : Nat) (jcallback : JObject)
  | Dispatched (req : Nat)
  | deleteReqWrap (req : Nat)
  | newTcpWrap (wrap : TcpWrap)
  | MakeCallback (jfunction : JObject) (jthis : JObject) (args : List JObject)
  | Call (jfunction : JObject) (jthis : JObject) (args : List JObject)
  | AllocBuffer (size : Nat) (result : Nat)
  | ReleaseBuffer (buffer : Nat)
  | CreateBuffer (size : Nat) (jbuffer : JObject)
  | Copy (dst : Buffer) (src : Nat) (len : Nat)
  deriving DecidableEq, Repr

/-- The state outside the handlers. `next` is the last address handed out,
`reqs` the live request wrappers with their stored callback, `wraps` the tcp
wrappers created by the accept path, `mem` the live byte blocks (scratch
buffers and script buffer storage), `jbuffers` the script buffer objects. -/
structure World where
  next : Nat
  reqs : List (Nat × JObject)
  wraps : List TcpWrap
  mem : List (Nat × List Nat)
  jbuffers : List (JObject × Buffer)
  trace : List Event
  deriving DecidableEq, Repr

/-- Answers of the external collaborators. The reactor functions give the
synchronous result code of the corresponding libuv call. -/
structure Env where
  IOTJS_MAX_READ_BUFFER_SIZE : Nat
  GetProperty : JObject → String → JObject
  GetNative : JObject → Option TcpWrap
  CallResult : JObject → JObject → List JObject → JObject
  uv_ip4_addr : String → Int → Int × sockaddr_in
  uv_tcp_bind : Nat → sockaddr_in → Nat → Int
  uv_tcp_connect : Nat → Nat → sockaddr_in → Int
  uv_accept : Nat → Nat → Int
  uv_write : Nat → Nat → List uv_buf_t → Int
  AllocBufferFails : Nat → Bool

/-- How a handler can stop abnormally. -/
inductive Fault where
  | assertion
  | invalidPointer (p : Nat)
  deriving DecidableEq, Repr

/-- A handler run: from a world to an outcome and the world it leaves. The
world (and its trace) survives a fault. -/
def Exec (α : Type) : Type := World → Except Fault α × World

namespace Exec

def pure {α : Type} (a : α) : Exec α := fun w => (.ok a, w)

def bind {α β : Type} (m : Exec α) (f : α → Exec β) : Exec β := fun w =>
  match m w with
  | (.ok a, w1) => f a w1
  | (.error e, w1) => (.error e, w1)

end Exec

instance : Monad Exec where
  pure := Exec.pure
  bind := Exec.bind

/-- Appends one event to the trace. -/
def emit (e : Event) : Exec Unit := fun w =>
  (.ok (), { w with trace := w.trace ++ [e] })

/-- Corresponds to `IOTJS_ASSERT`: a failed assertion stops the handler. -/
def IOTJS_ASSERT (c : Bool) : Exec Unit := fun w =>
  if c then (.ok (), w) else (.error .assertion, w)

/-- Hands out an address never used before (never `NULL`). -/
def fresh : Exec Nat := fun w =>
  (.ok (w.next + 1), { w with next := w.next + 1 })

/-- Corresponds to `TcpWrap::FromJObject`: the native pointer of the script
object, asserted to be non-null. -/
def TcpWrap.FromJObject (env : Env) (jtcp : JObject) : Exec TcpWrap := fun w =>
  match env.GetNative jtcp with
  | some wrap => (.ok wrap, w)
  | none => (.error .assertion, w)

/-- The reactor bind call: recorded, its result code comes from the
environment. -/
def uv_tcp_bind (env : Env) (handle : Nat) (addr : sockaddr_in) (flags : Nat) :
    Exec Int := do
  emit (.uv_tcp_bind handle addr flags)
  return env.uv_tcp_bind handle addr flags

/-- The reactor connect call: recorded, result code from the environment. -/
def uv_tcp_connect (env : Env) (req : Nat) (handle : Nat) (addr : sockaddr_in) :
    Exec Int := do
  emit (.uv_tcp_connect req handle addr)
  return env.uv_tcp_connect req handle addr

/-- The reactor accept call: recorded, result code from the environment. -/
def uv_accept (env : Env) (server : Nat) (client : Nat) : Exec Int := do
  emit (.uv_accept server client)
  return env.uv_accept server client

/-- The reactor write call: recorded, result code from the environment. -/
def uv_write (env : Env) (req : Nat) (handle : Nat) (bufs : List uv_buf_t) :
    Exec Int := do
  emit (.uv_write req handle bufs)
  return env.uv_write req handle bufs

/-- Reads through a pointer that may be `NULL`. -/
def deref {α : Type} (p : Option α) : Exec α := fun w =>
  match p with
  | some a => (.ok a, w)
  | none => (.error (.invalidPointer NULL), w)

/-- Corresponds to `new ConnectReqWrap(jcallback)`: a live request wrapper at a
fresh address holding the callback. -/
def newConnectReqWrap (jcallback : JObject) : Exec Nat := do
  let req ← fresh
  fun w => (.ok (), { w with reqs := (req, jcallback) :: w.reqs })
  emit (.newConnectReqWrap req jcallback)
  return req

/-- Corresponds to `new WriteReqWrap(jcallback)`. -/
def newWriteReqWrap (jcallback : JObject) : Exec Nat := do
  let req ← fresh
  fun w => (.ok (), { w with reqs := (req, jcallback) :: w.reqs })
  emit (.newWriteReqWrap req jcallback)
  return req

/-- Corresponds to `req_wrap->jcallback()`; the wrapper must be live. -/
def ReqWrap.jcallback (req_wrap : Nat) : Exec JObject := fun w =>
  match w.reqs.lookup req_wrap with
  | some jcallback => (.ok jcallback, w)
  | none => (.error (.invalidPointer req_wrap), w)

/-- Corresponds to `req_wrap->Dispatched()`. -/
def ReqWrap.Dispatched (req_wrap : Nat) : Exec Unit :=
  emit (.Dispatched req_wrap)

/-- Corresponds to `delete req_wrap`: the wrapper stops being live. Deleting
a wrapper that is not live is a fault. -/
def deleteReqWrap (req_wrap : Nat) : Exec Unit := fun w =>
  match w.reqs.lookup req_wrap with
  | some _ =>
    (.ok (), { w with reqs := w.reqs.filter (fun p => p.1 != req_wrap),
                      trace := w.trace ++ [.deleteReqWrap req_wrap] })
  | none => (.error (.invalidPointer req_wrap), w)

/-- Corresponds to `new TcpWrap(env, jtcp, jholder)`: a wrapper at a fresh
address whose embedded handle is initialised against the reactor. -/
def newTcpWrap (jtcp : JObject) (jholder : JObject) : Exec TcpWrap := do
  let a ← fresh
  let wrap : TcpWrap := { _handle := a, jnative := jtcp, jholder := jholder }
  fun w => (.ok (), { w with wraps := wrap :: w.wraps })
  emit (.newTcpWrap wrap)
  emit (.uv_tcp_init a)
  return wrap

/-- Modelled from the spec: `MakeCallback` (declared in the binding layer,
not in this file) invokes the script function `jfunction` with `jthis` as
invocation context and `args` as arguments. The invocation is recorded; what the
script body does is outside the model. -/
def MakeCallback (jfunction : JObject) (jthis : JObject) (args : List JObject) :
    Exec Unit :=
  emit (.MakeCallback jfunction jthis args)

/-- Modelled from the spec: `JObject::Call` invokes the script function with
the given context and arguments and yields its result, here the answer of the
environment. -/
def JObject.Call (env : Env) (jfunction : JObject) (jthis : JObject)
    (args : List JObject) : Exec JObject := do
  emit (.Call jfunction jthis args)
  return env.CallResult jfunction jthis args

/-- Modelled from the spec: `AllocBuffer` (buffer module, not in this file)
allocates a scratch block of the requested size; on allocation failure the
result is `NULL`. -/
def AllocBuffer (env : Env) (size : Nat) : Exec Nat := do
  if env.AllocBufferFails size then
    emit (.AllocBuffer size NULL)
    return NULL
  let p ← fresh
  fun w => (.ok (), { w with mem := (p, List.replicate size 0) :: w.mem })
  emit (.AllocBuffer size p)
  return p

/-- Modelled from the spec: `ReleaseBuffer` (buffer module, not in this file)
releases a scratch block. Releasing an address that is not a live block is a
fault. -/
def ReleaseBuffer (buffer : Nat) : Exec Unit := fun w =>
  match w.mem.lookup buffer with
  | some _ =>
    (.ok (), { w with mem := w.mem.filter (fun p => p.1 != buffer),
                      trace := w.trace ++ [.ReleaseBuffer buffer] })
  | none => (.error (.invalidPointer buffer), w)

/-- Modelled from the spec: `CreateBuffer` (buffer module, not in this file)
creates a fresh script-visible buffer object of the given length. -/
def CreateBuffer (size : Nat) : Exec JObject := do
  let a ← fresh
  let jbuffer := JObject.object a
  fun w => (.ok (), { w with mem := (a, List.replicate size 0) :: w.mem,
                             jbuffers := (jbuffer, { buffer := a, length := size }) :: w.jbuffers })
  emit (.CreateBuffer size jbuffer)
  return jbuffer

/-- Modelled from the spec: `Buffer::FromJBuffer` (buffer module, not in this
file) yields the native buffer wrapper of a script buffer object. -/
def Buffer.FromJBuffer (jbuffer : JObject) : Exec Buffer := fun w =>
  match w.jbuffers.lookup jbuffer with
  | some b => (.ok b, w)
  | none => (.error .assertion, w)

/-- The bytes of a script buffer object in a world, when it exists. -/
def World.bytesOf (w : World) (jbuffer : JObject) : Option (List Nat) :=
  match w.jbuffers.lookup jbuffer with
  | some b => (w.mem.lookup b.buffer).map (fun bytes => bytes.take b.length)
  | none => none

/-- Modelled from the spec: `Buffer::Copy(src, len)` (buffer module, not in
this file) copies `len` bytes, at most the buffer length, from `src` to the
start of the buffer. The call is recorded before memory is touched; reading
from an address that is not a live block is a fault. -/
def Buffer.Copy (dst : Buffer) (src : Nat) (len : Nat) : Exec Nat := do
  emit (.Copy dst src len)
  fun w =>
    match w.mem.lookup src, w.mem.lookup dst.buffer with
    | some from_bytes, some to_bytes =>
      let copied := from_bytes.take (min len dst.length)
      (.ok copied.length,
        { w with mem := (dst.buffer, copied ++ to_bytes.drop copied.length) ::
                          w.mem.filter (fun p => p.1 != dst.buffer) })
    | none, _ => (.error (.invalidPointer src), w)
    | some _, none => (.error (.invalidPointer dst.buffer), w)

/-! ## Handlers -/

/-- Corresponds to `JHANDLER_FUNCTION(Bind, handler)`. The result is the value
given to `handler.Return`. -/
def Bind (env : Env) (handler : JHandlerInfo) : Exec JObject := do
  IOTJS_ASSERT handler.GetThis.IsObject
  IOTJS_ASSERT (handler.GetArgLength == 2)
  IOTJS_ASSERT (handler.GetArg 0).IsString
  IOTJS_ASSERT (handler.GetArg 1).IsNumber
  let address := (handler.GetArg 0).GetCString
  let port := (handler.GetArg 1).GetInt32
  let (err0, addr) := env.uv_ip4_addr address port
  let mut err := err0
  if err == 0 then
    let wrap ← TcpWrap.FromJObject env handler.GetThis
    err ← uv_tcp_bind env wrap.tcp_handle addr 0
  let ret := JObject.number err
  return ret

/-- Corresponds to `AfterConnect(uv_connect_t* req, int status)`. -/
def AfterConnect (env : Env) (req : uv_req_t) (status : Int) : Exec Unit := do
  let req_wrap := req.data
  let tcp_wrap := req.handle.data
  IOTJS_ASSERT (req_wrap != NULL)
  IOTJS_ASSERT (tcp_wrap != none)
  let tcp_wrap ← deref tcp_wrap
  let jsocket := tcp_wrap.jholder
  let jonconnect := env.GetProperty jsocket "_onconnect"
  IOTJS_ASSERT jonconnect.IsFunction
  MakeCallback jonconnect jsocket JArgList.Empty
  let jcallback ← ReqWrap.jcallback req_wrap
  let args := [JVal.Int status]
  MakeCallback jcallback jsocket args
  deleteReqWrap req_wrap

/-- Corresponds to `JHANDLER_FUNCTION(Connect, handler)`. The result is the
value given to `handler.Return`. -/
def Connect (env : Env) (handler : JHandlerInfo) : Exec JObject := do
  IOTJS_ASSERT handler.GetThis.IsObject
  IOTJS_ASSERT (handler.GetArgLength == 3)
  IOTJS_ASSERT (handler.GetArg 0).IsString
  IOTJS_ASSERT (handler.GetArg 1).IsNumber
  IOTJS_ASSERT (handler.GetArg 2).IsFunction
  let address := (handler.GetArg 0).GetCString
  let port := (handler.GetArg 1).GetInt32
  let jcallback := handler.GetArg 2
  let (err0, addr) := env.uv_ip4_addr address port
  let mut err := err0
  if err == 0 then
    let tcp_wrap ← TcpWrap.FromJObject env handler.GetThis
    let req_wrap ← newConnectReqWrap jcallback
    err ← uv_tcp_connect env req_wrap tcp_wrap.tcp_handle addr
    ReqWrap.Dispatched req_wrap
    if err != 0 then
      deleteReqWrap req_wrap
  let ret := JObject.number err
  return ret

/-- Corresponds to `OnConnection(uv_stream_t* handle, int status)`. -/
def OnConnection (env : Env) (handle : uv_stream_t) (status : Int) : Exec Unit := do
  let tcp_wrap ← deref handle.data
  IOTJS_ASSERT (tcp_wrap.tcp_handle == handle.addr)
  let jserver := tcp_wrap.jholder
  IOTJS_ASSERT jserver.IsObject
  let jonconnection := env.GetProperty jserver "_onconnection"
  IOTJS_ASSERT jonconnection.IsFunction
  let mut args := [JVal.Int status]
  if status == 0 then
    let jfunc_create_tcp := env.GetProperty jserver "_createTCP"
    IOTJS_ASSERT jfunc_create_tcp.IsFunction
    let jclient_tcp ← JObject.Call env jfunc_create_tcp jserver JArgList.Empty
    IOTJS_ASSERT jclient_tcp.IsObject
    let client_wrap ← newTcpWrap jclient_tcp JObject.Null
    let client_handle := client_wrap.tcp_handle
    let err ← uv_accept env handle.addr client_handle
    if err != 0 then
      return
    args := args ++ [jclient_tcp]
  MakeCallback jonconnection jserver args

/-- Corresponds to `AfterWrite(uv_write_t* req, int status)`. -/
def AfterWrite (req : uv_req_t) (status : Int) : Exec Unit := do
  let req_wrap := req.data
  let tcp_wrap := req.handle.data
  IOTJS_ASSERT (req_wrap != NULL)
  IOTJS_ASSERT (tcp_wrap != none)
  let tcp_wrap ← deref tcp_wrap
  let jsocket := tcp_wrap.jholder
  let jcallback ← ReqWrap.jcallback req_wrap
  let args := [JVal.Int status]
  MakeCallback jcallback jsocket args
  deleteReqWrap req_wrap

/-- Corresponds to `JHANDLER_FUNCTION(Write, handler)`. The result is the
value given to `handler.Return`. The source asserts `tcp_wrap != NULL` a second
time after `FromJObject`, which has already asserted it. -/
def Write (env : Env) (handler : JHandlerInfo) : Exec JObject := do
  IOTJS_ASSERT handler.GetThis.IsObject
  IOTJS_ASSERT (handler.GetArgLength == 2)
  IOTJS_ASSERT (handler.GetArg 0).IsObject
  IOTJS_ASSERT (handler.GetArg 1).IsFunction
  let tcp_wrap ← TcpWrap.FromJObject env handler.GetThis
  let jbuffer := handler.GetArg 0
  let buffer_wrap ← Buffer.FromJBuffer jbuffer
  let buffer := buffer_wrap.buffer
  let len := buffer_wrap.length
  let buf : uv_buf_t := { base := buffer, len := len }
  let req_wrap ← newWriteReqWrap (handler.GetArg 1)
  let err ← uv_write env req_wrap tcp_wrap.tcp_handle [buf]
  ReqWrap.Dispatched req_wrap
  return JVal.Int err

/-- Corresponds to `OnAlloc(uv_handle_t* handle, size_t suggested_size,
uv_buf_t* buf)`. The result is the buffer descriptor written through `buf`. -/
def OnAlloc (env : Env) (_handle : uv_stream_t) (suggested_size : Nat) :
    Exec uv_buf_t := do
  let mut suggested_size := suggested_size
  if suggested_size > env.IOTJS_MAX_READ_BUFFER_SIZE then
    suggested_size := env.IOTJS_MAX_READ_BUFFER_SIZE
  let base ← AllocBuffer env suggested_size
  return { base := base, len := suggested_size }

/-- Corresponds to `OnRead(uv_stream_t* handle, ssize_t nread,
const uv_buf_t* buf)`. -/
def OnRead (env : Env) (handle : uv_stream_t) (nread : Int) (buf : uv_buf_t) :
    Exec Unit := do
  let tcp_wrap := handle.data
  IOTJS_ASSERT (tcp_wrap != none)
  let tcp_wrap ← deref tcp_wrap
  let jsocket := tcp_wrap.jholder
  IOTJS_ASSERT jsocket.IsObject
  let jonread := env.GetProperty jsocket "_onread"
  IOTJS_ASSERT jonread.IsFunction
  let mut jargs := [JVal.Int nread]
  if nread <= 0 then
    if buf.base != NULL then
      ReleaseBuffer buf.base
    if nread < 0 then
      MakeCallback jonread jsocket jargs
    return
  let jbuffer ← CreateBuffer nread.toNat
  let buffer_wrap ← Buffer.FromJBuffer jbuffer
  let _ ← buffer_wrap.Copy buf.base nread.toNat
  jargs := jargs ++ [jbuffer]
  MakeCallback jonread jsocket jargs

/-! ## Observations on traces and worlds -/

/-- The events a run added to the trace of the world it started from. -/
def World.eventsSince (after : World) (before : World) : List Event :=
  after.trace.drop before.trace.length

/-- The request wrappers created by a list of events. -/
def createdReqs (t : List Event) : List Nat :=
  t.filterMap fun e =>
    match e with
    | .newConnectReqWrap req _ => some req
    | .newWriteReqWrap req _ => some req
    | _ => none

/-- Whether a request wrapper is live in a world. -/
def World.live (w : World) (req : Nat) : Bool :=
  (w.reqs.lookup req).isSome

/-- The `MakeCallback` invocations of a given script function in a trace. -/
def callbacksTo (jfunction : JObject) (t : List Event) : List Event :=
  t.filter fun e =>
    match e with
    | .MakeCallback f _ _ => f == jfunction
    | _ => false

/-- The `ReleaseBuffer` calls in a trace. -/
def releases (t : List Event) : List Event :=
  t.filter fun e =>
    match e with
    | .ReleaseBuffer _ => true
    | _ => false

/-- The request destructions in a trace. -/
def deletions (t : List Event) : List Event :=
  t.filter fun e =>
    match e with
    | .deleteReqWrap _ => true
    | _ => false

/-- The script invocations (`MakeCallback` and `Call`) in a trace. -/
def scriptCalls (t : List Event) : List Event :=
  t.filter fun e =>
    match e with
    | .MakeCallback _ _ _ => true
    | .Call _ _ _ => true
    | _ => false

/-! ## Sample inputs -/

/-- A sample environment: a socket object `object 1` wrapping the handle at
address 100 with holder `object 2`, a holder exposing the four event
callbacks and the `_createTCP` factory, an address parser accepting
`127.0.0.1` only, and a reactor accepting every request. -/
def sampleEnv : Env where
  IOTJS_MAX_READ_BUFFER_SIZE := 8
  GetProperty := fun _ name =>
    if name = "_onread" then .function 11
    else if name = "_onconnect" then .function 12
    else if name = "_onconnection" then .function 13
    else if name = "_createTCP" then .function 14
    else .undefined
  GetNative := fun j =>
    match j with
    | .object 1 => some { _handle := 100, jnative := .object 1, jholder := .object 2 }
    | _ => none
  CallResult := fun _ _ _ => .object 3
  uv_ip4_addr := fun s p =>
    if s = "127.0.0.1" then (0, ⟨2130706433, p.toNat⟩) else (-22, ⟨0, 0⟩)
  uv_tcp_bind := fun _ _ _ => 0
  uv_tcp_connect := fun _ _ _ => 0
  uv_accept := fun _ _ => 0
  uv_write := fun _ _ _ => 0
  AllocBufferFails := fun _ => false

/-- The sample environment with a reactor that rejects every request with
the code `-9`. -/
def rejectingEnv : Env :=
  { sampleEnv with
    uv_tcp_connect := fun _ _ _ => -9
    uv_accept := fun _ _ => -9
    uv_write := fun _ _ _ => -9 }

/-- The wrapper of the sample socket. -/
def sampleWrap : TcpWrap := { _handle := 100, jnative := .object 1, jholder := .object 2 }

/-- The native handle of the sample socket as the reactor passes it back. -/
def sampleHandle : uv_stream_t := { addr := 100, data := some sampleWrap }

/-- A sample world: one live connect or write request at address 160 with
callback `function 5`, one live scratch block at address 150 holding four
bytes, and one script buffer `object 170` of three bytes. -/
def sampleWorld : World where
  next := 200
  reqs := [(160, .function 5)]
  wraps := []
  mem := [(150, [7, 8, 9, 10]), (170, [1, 2, 3])]
  jbuffers := [(.object 170, { buffer := 170, length := 3 })]
  trace := []

/-! ## Theorems -/

@[simp] theorem Exec.pure_run {α : Type} (a : α) (w : World) :
    (Pure.pure a : Exec α) w = (.ok a, w) := rfl

@[simp] theorem Exec.bind_run {α β : Type} (m : Exec α) (f : α → Exec β) (w : World) :
    (m >>= f) w = (match m w with
      | (.ok a, w1) => f a w1
      | (.error e, w1) => (.error e, w1)) := rfl

/-- After all entries under a key are filtered out, the key is not found. -/
theorem lookup_filter_self {β : Type} (a : Nat) (l : List (Nat × β)) :
    (l.filter (fun p => p.1 != a)).lookup a = none := by
  induction l with
  | nil => rfl
  | cons x xs ih =>
    obtain ⟨k, v⟩ := x
    by_cases h : k = a
    · subst h
      simpa [List.filter] using ih
    · have h1 : (fun p : Nat × β => p.1 != a) (k, v) = true := by simpa using h
      have h2 : (a == k) = false := by simpa using fun e : a = k => h e.symm
      have hf : List.filter (fun p : Nat × β => p.1 != a) ((k, v) :: xs) =
          (k, v) :: List.filter (fun p : Nat × β => p.1 != a) xs :=
        List.filter_cons_of_pos h1
      rw [hf, List.lookup_cons]
      simp only [h2]
      exact ih

/-- C1. Bind called with a string address and a number port: when the IPv4
address parser yields a nonzero code, Bind returns that code and leaves the
world untouched, so no reactor bind call is issued; when the parser yields 0,
Bind issues exactly one reactor bind call, on the handle of the socket, with
the parsed address, and returns the result code of that call unchanged. -/
theorem Bind_returns_parse_code_or_bind_result (env : Env) (handler : JHandlerInfo)
    (w : World) (address : String) (port : Int)
    (hthis : handler.this.IsObject = true)
    (hargs : handler.args = [.string address, .number port]) :
    ((env.uv_ip4_addr address port).1 ≠ 0 →
      Bind env handler w = (.ok (.number (env.uv_ip4_addr address port).1), w)) ∧
    ((env.uv_ip4_addr address port).1 = 0 →
      ∀ wrap, env.GetNative handler.this = some wrap →
        Bind env handler w =
          (.ok (.number (env.uv_tcp_bind wrap.tcp_handle (env.uv_ip4_addr address port).2 0)),
           { w with trace := w.trace ++
              [.uv_tcp_bind wrap.tcp_handle (env.uv_ip4_addr address port).2 0] })) := by
  constructor
  · intro h
    simp [Bind, IOTJS_ASSERT, JHandlerInfo.GetThis, JHandlerInfo.GetArgLength,
      JHandlerInfo.GetArg, hthis, hargs, JObject.IsString, JObject.IsNumber,
      JObject.GetCString, JObject.GetInt32, h]
  · intro h wrap hw
    simp [Bind, IOTJS_ASSERT, JHandlerInfo.GetThis, JHandlerInfo.GetArgLength,
      JHandlerInfo.GetArg, hthis, hargs, JObject.IsString, JObject.IsNumber,
      JObject.GetCString, JObject.GetInt32, h, TcpWrap.FromJObject, hw, uv_tcp_bind, emit]

/-- Witness for C1: binding the sample socket to `127.0.0.1:8080`. -/
theorem Bind_returns_parse_code_or_bind_result_witness :
    ((sampleEnv.uv_ip4_addr "127.0.0.1" 8080).1 ≠ 0 →
      Bind sampleEnv ⟨.object 1, [.string "127.0.0.1", .number 8080]⟩ sampleWorld =
        (.ok (.number (sampleEnv.uv_ip4_addr "127.0.0.1" 8080).1), sampleWorld)) ∧
    ((sampleEnv.uv_ip4_addr "127.0.0.1" 8080).1 = 0 →
      ∀ wrap, sampleEnv.GetNative (JObject.object 1) = some wrap →
        Bind sampleEnv ⟨.object 1, [.string "127.0.0.1", .number 8080]⟩ sampleWorld =
          (.ok (.number (sampleEnv.uv_tcp_bind wrap.tcp_handle
              (sampleEnv.uv_ip4_addr "127.0.0.1" 8080).2 0)),
           { sampleWorld with trace := sampleWorld.trace ++
              [.uv_tcp_bind wrap.tcp_handle (sampleEnv.uv_ip4_addr "127.0.0.1" 8080).2 0] })) :=
  Bind_returns_parse_code_or_bind_result sampleEnv ⟨.object 1, [.string "127.0.0.1", .number 8080]⟩
    sampleWorld "127.0.0.1" 8080 rfl rfl

/-- C3. A connect completion with any status, for a live Connect Request
holding callback `cb` on a handle with holder `h` whose `_onconnect` is a
function: the handler makes exactly two script invocations, first
`_onconnect` with no arguments, then `cb` with the single argument status,
both with `h` as context, and after them destroys the request exactly once,
which is then no longer live. -/
theorem AfterConnect_two_callbacks_then_destroy (env : Env) (req : uv_req_t)
    (status : Int) (w : World) (tcp_wrap : TcpWrap) (cb : JObject)
    (hnull : req.data ≠ NULL)
    (hlive : w.reqs.lookup req.data = some cb)
    (hdata : req.handle.data = some tcp_wrap)
    (hfun : (env.GetProperty tcp_wrap.jholder "_onconnect").IsFunction = true) :
    AfterConnect env req status w =
      (.ok (),
       { w with
         reqs := w.reqs.filter (fun p => p.1 != req.data)
         trace := w.trace ++
           [.MakeCallback (env.GetProperty tcp_wrap.jholder "_onconnect") tcp_wrap.jholder [],
            .MakeCallback cb tcp_wrap.jholder [.number status],
            .deleteReqWrap req.data] }) ∧
    (AfterConnect env req status w).2.reqs.lookup req.data = none := by
  have h : AfterConnect env req status w =
      (.ok (),
       { w with
         reqs := w.reqs.filter (fun p => p.1 != req.data)
         trace := w.trace ++
           [.MakeCallback (env.GetProperty tcp_wrap.jholder "_onconnect") tcp_wrap.jholder [],
            .MakeCallback cb tcp_wrap.jholder [.number status],
            .deleteReqWrap req.data] }) := by
    simp [AfterConnect, IOTJS_ASSERT, hnull, hdata, deref, hfun, MakeCallback, emit,
      ReqWrap.jcallback, hlive, deleteReqWrap, JArgList.Empty, JVal.Int]
  refine ⟨h, ?_⟩
  rw [h]
  exact lookup_filter_self _ _

/-- Witness for C3: the sample request completes with status `-111`. -/
theorem AfterConnect_two_callbacks_then_destroy_witness :
    AfterConnect sampleEnv ⟨160, sampleHandle⟩ (-111) sampleWorld =
      (.ok (),
       { sampleWorld with
         reqs := sampleWorld.reqs.filter (fun p => p.1 != 160)
         trace := sampleWorld.trace ++
           [.MakeCallback (sampleEnv.GetProperty sampleWrap.jholder "_onconnect")
              sampleWrap.jholder [],
            .MakeCallback (.function 5) sampleWrap.jholder [.number (-111)],
            .deleteReqWrap 160] }) ∧
    (AfterConnect sampleEnv ⟨160, sampleHandle⟩ (-111) sampleWorld).2.reqs.lookup 160 = none :=
  AfterConnect_two_callbacks_then_destroy sampleEnv ⟨160, sampleHandle⟩ (-111) sampleWorld
    sampleWrap (.function 5) (by decide) rfl rfl rfl

/-- C7. A write completion with any status, zero or not, for a live Write
Request holding callback `cb` on a handle with holder `h`: the handler
invokes `cb` exactly once, with `h` as context and the status as its single
argument, invokes nothing else, and then destroys the request exactly once,
which is then no longer live. -/
theorem AfterWrite_one_callback_then_destroy (req : uv_req_t)
    (status : Int) (w : World) (tcp_wrap : TcpWrap) (cb : JObject)
    (hnull : req.data ≠ NULL)
    (hlive : w.reqs.lookup req.data = some cb)
    (hdata : req.handle.data = some tcp_wrap) :
    AfterWrite req status w =
      (.ok (),
       { w with
         reqs := w.reqs.filter (fun p => p.1 != req.data)
         trace := w.trace ++
           [.MakeCallback cb tcp_wrap.jholder [.number status],
            .deleteReqWrap req.data] }) ∧
    (AfterWrite req status w).2.reqs.lookup req.data = none := by
  have h : AfterWrite req status w =
      (.ok (),
       { w with
         reqs := w.reqs.filter (fun p => p.1 != req.data)
         trace := w.trace ++
           [.MakeCallback cb tcp_wrap.jholder [.number status],
            .deleteReqWrap req.data] }) := by
    simp [AfterWrite, IOTJS_ASSERT, hnull, hdata, deref, MakeCallback, emit,
      ReqWrap.jcallback, hlive, deleteReqWrap, JVal.Int]
  refine ⟨h, ?_⟩
  rw [h]
  exact lookup_filter_self _ _

/-- Witness for C7: the sample request completes with status `-32`. -/
theorem AfterWrite_one_callback_then_destroy_witness :
    AfterWrite ⟨160, sampleHandle⟩ (-32) sampleWorld =
      (.ok (),
       { sampleWorld with
         reqs := sampleWorld.reqs.filter (fun p => p.1 != 160)
         trace := sampleWorld.trace ++
           [.MakeCallback (.function 5) sampleWrap.jholder [.number (-32)],
            .deleteReqWrap 160] }) ∧
    (AfterWrite ⟨160, sampleHandle⟩ (-32) sampleWorld).2.reqs.lookup 160 = none :=
  AfterWrite_one_callback_then_destroy ⟨160, sampleHandle⟩ (-32) sampleWorld
    sampleWrap (.function 5) (by decide) rfl rfl

/-- C9. For every suggested size, the Allocate callback requests exactly one
allocation, of `min suggested_size IOTJS_MAX_READ_BUFFER_SIZE` bytes, and
reports exactly that number as the buffer length together with the address the
allocator returned; the reported length never exceeds the maximum and equals
the suggestion whenever the suggestion is at most the maximum. -/
theorem OnAlloc_clamps_to_maximum (env : Env) (handle : uv_stream_t)
    (suggested_size : Nat) (w : World) :
    ∃ base : Nat,
      (OnAlloc env handle suggested_size w).1 =
        .ok { base := base, len := min suggested_size env.IOTJS_MAX_READ_BUFFER_SIZE } ∧
      (OnAlloc env handle suggested_size w).2.trace =
        w.trace ++ [.AllocBuffer (min suggested_size env.IOTJS_MAX_READ_BUFFER_SIZE) base] ∧
      min suggested_size env.IOTJS_MAX_READ_BUFFER_SIZE ≤ env.IOTJS_MAX_READ_BUFFER_SIZE ∧
      (suggested_size ≤ env.IOTJS_MAX_READ_BUFFER_SIZE →
        min suggested_size env.IOTJS_MAX_READ_BUFFER_SIZE = suggested_size) := by
  by_cases hs : suggested_size > env.IOTJS_MAX_READ_BUFFER_SIZE
  · have hmin : min suggested_size env.IOTJS_MAX_READ_BUFFER_SIZE =
        env.IOTJS_MAX_READ_BUFFER_SIZE := Nat.min_eq_right (Nat.le_of_lt hs)
    by_cases hf : env.AllocBufferFails env.IOTJS_MAX_READ_BUFFER_SIZE = true
    · refine ⟨NULL, ?_, ?_, ?_, fun h => absurd hs (Nat.not_lt.mpr h)⟩ <;>
        simp [OnAlloc, hs, hmin, AllocBuffer, hf, emit, fresh]
    · refine ⟨w.next + 1, ?_, ?_, ?_, fun h => absurd hs (Nat.not_lt.mpr h)⟩ <;>
        simp [OnAlloc, hs, hmin, AllocBuffer, hf, emit, fresh]
  · have hle : suggested_size ≤ env.IOTJS_MAX_READ_BUFFER_SIZE := Nat.le_of_not_gt hs
    have hmin : min suggested_size env.IOTJS_MAX_READ_BUFFER_SIZE = suggested_size :=
      Nat.min_eq_left hle
    by_cases hf : env.AllocBufferFails suggested_size = true
    · refine ⟨NULL, ?_, ?_, ?_, fun _ => hmin⟩ <;>
        simp [OnAlloc, hs, hmin, AllocBuffer, hf, emit, fresh, hle]
    · refine ⟨w.next + 1, ?_, ?_, ?_, fun _ => hmin⟩ <;>
        simp [OnAlloc, hs, hmin, AllocBuffer, hf, emit, fresh, hle]

/-- C5. Connect called with a string address, a number port and a function:
the returned value is the parser code when that is nonzero and the reactor
connect code otherwise; a request created by the call is live afterwards if
and only if the returned code is 0. On a parse failure the world is untouched
(no request, no reactor connect). On a synchronous rejection the request is
created, dispatched and destroyed exactly once before the return. -/
theorem Connect_result_and_request_lifetime (env : Env) (handler : JHandlerInfo)
    (w : World) (address : String) (port : Int) (cb : JObject) (wrap : TcpWrap)
    (hthis : handler.this.IsObject = true)
    (hargs : handler.args = [.string address, .number port, cb])
    (hcb : cb.IsFunction = true)
    (hnative : env.GetNative handler.this = some wrap) :
    (Connect env handler w).1 =
      .ok (.number (if (env.uv_ip4_addr address port).1 ≠ 0
        then (env.uv_ip4_addr address port).1
        else env.uv_tcp_connect (w.next + 1) wrap.tcp_handle (env.uv_ip4_addr address port).2)) ∧
    ((∃ req ∈ createdReqs ((Connect env handler w).2.eventsSince w),
        (Connect env handler w).2.live req = true) ↔
      (Connect env handler w).1 = .ok (.number 0)) ∧
    ((env.uv_ip4_addr address port).1 ≠ 0 → (Connect env handler w).2 = w) ∧
    ((env.uv_ip4_addr address port).1 = 0 →
      env.uv_tcp_connect (w.next + 1) wrap.tcp_handle (env.uv_ip4_addr address port).2 ≠ 0 →
      (Connect env handler w).2.eventsSince w =
        [.newConnectReqWrap (w.next + 1) cb,
         .uv_tcp_connect (w.next + 1) wrap.tcp_handle (env.uv_ip4_addr address port).2,
         .Dispatched (w.next + 1),
         .deleteReqWrap (w.next + 1)] ∧
      (Connect env handler w).2.live (w.next + 1) = false) ∧
    ((env.uv_ip4_addr address port).1 = 0 →
      env.uv_tcp_connect (w.next + 1) wrap.tcp_handle (env.uv_ip4_addr address port).2 = 0 →
      (Connect env handler w).2.eventsSince w =
        [.newConnectReqWrap (w.next + 1) cb,
         .uv_tcp_connect (w.next + 1) wrap.tcp_handle (env.uv_ip4_addr address port).2,
         .Dispatched (w.next + 1)] ∧
      (Connect env handler w).2.live (w.next + 1) = true) := by
  by_cases hp : (env.uv_ip4_addr address port).1 = 0
  · by_cases hc : env.uv_tcp_connect (w.next + 1) wrap.tcp_handle
        (env.uv_ip4_addr address port).2 = 0
    · have h : Connect env handler w =
          (.ok (.number 0),
           { w with
             next := w.next + 1
             reqs := (w.next + 1, cb) :: w.reqs
             trace := w.trace ++
               [.newConnectReqWrap (w.next + 1) cb,
                .uv_tcp_connect (w.next + 1) wrap.tcp_handle (env.uv_ip4_addr address port).2,
                .Dispatched (w.next + 1)] }) := by
        simp [Connect, IOTJS_ASSERT, JHandlerInfo.GetThis, JHandlerInfo.GetArgLength,
          JHandlerInfo.GetArg, hthis, hargs, hcb, JObject.IsString, JObject.IsNumber,
          JObject.GetCString, JObject.GetInt32, hp, TcpWrap.FromJObject, hnative,
          newConnectReqWrap, fresh, uv_tcp_connect, emit, ReqWrap.Dispatched, hc]
      simp [h, hp, hc, World.eventsSince, createdReqs, World.live, List.lookup]
    · have h : Connect env handler w =
          (.ok (.number (env.uv_tcp_connect (w.next + 1) wrap.tcp_handle
              (env.uv_ip4_addr address port).2)),
           { w with
             next := w.next + 1
             reqs := ((w.next + 1, cb) :: w.reqs).filter (fun p => p.1 != w.next + 1)
             trace := w.trace ++
               [.newConnectReqWrap (w.next + 1) cb,
                .uv_tcp_connect (w.next + 1) wrap.tcp_handle (env.uv_ip4_addr address port).2,
                .Dispatched (w.next + 1),
                .deleteReqWrap (w.next + 1)] }) := by
        simp [Connect, IOTJS_ASSERT, JHandlerInfo.GetThis, JHandlerInfo.GetArgLength,
          JHandlerInfo.GetArg, hthis, hargs, hcb, JObject.IsString, JObject.IsNumber,
          JObject.GetCString, JObject.GetInt32, hp, TcpWrap.FromJObject, hnative,
          newConnectReqWrap, fresh, uv_tcp_connect, emit, ReqWrap.Dispatched, hc,
          deleteReqWrap, List.lookup]
      simp [h, hp, hc, World.eventsSince, createdReqs, World.live]
      intro a _ _ h1 h2
      exact h1 h2.symm
  · have h : Connect env handler w = (.ok (.number (env.uv_ip4_addr address port).1), w) := by
      simp [Connect, IOTJS_ASSERT, JHandlerInfo.GetThis, JHandlerInfo.GetArgLength,
        JHandlerInfo.GetArg, hthis, hargs, hcb, JObject.IsString, JObject.IsNumber,
        JObject.GetCString, JObject.GetInt32, hp]
    simp [h, hp, World.eventsSince, createdReqs]

/-- Witness for C5: the sample socket connects to `127.0.0.1:8080` while the
reactor rejects the request synchronously. -/
theorem Connect_result_and_request_lifetime_witness :
    (Connect rejectingEnv ⟨.object 1, [.string "127.0.0.1", .number 8080, .function 6]⟩
        sampleWorld).1 = .ok (.number (-9)) ∧
    (Connect rejectingEnv ⟨.object 1, [.string "127.0.0.1", .number 8080, .function 6]⟩
        sampleWorld).2.live 201 = false :=
  have h := Connect_result_and_request_lifetime rejectingEnv
    ⟨.object 1, [.string "127.0.0.1", .number 8080, .function 6]⟩ sampleWorld
    "127.0.0.1" 8080 (.function 6) sampleWrap rfl rfl rfl rfl
  ⟨h.1, (h.2.2.2.1 rfl (by decide)).2⟩

/-- C4, counterexample. A connection event with status 0 whose accept call is
rejected by the reactor: the handler returns after the accept call and
`_onconnection` is not invoked at all. -/
theorem OnConnection_accept_failure_no_callback :
    rejectingEnv.uv_accept 100 201 ≠ 0 ∧
    OnConnection rejectingEnv sampleHandle 0 sampleWorld =
      (.ok (),
       { sampleWorld with
         next := 201
         wraps := [{ _handle := 201, jnative := .object 3, jholder := .null }]
         trace :=
           [.Call (.function 14) (.object 2) [],
            .newTcpWrap { _handle := 201, jnative := .object 3, jholder := .null },
            .uv_tcp_init 201,
            .uv_accept 100 201] }) ∧
    callbacksTo (rejectingEnv.GetProperty (.object 2) "_onconnection")
      ((OnConnection rejectingEnv sampleHandle 0 sampleWorld).2.eventsSince sampleWorld) = [] := by
  refine ⟨by decide, rfl, rfl⟩

/-- C4, amended. An incoming-connection event on a listening handle whose
holder is an object with a function `_onconnection`: when the status is
nonzero the handler invokes `_onconnection` exactly once, with the holder as
context and the status as only argument; when the status is 0 it calls the
`_createTCP` factory, wraps the client object, issues the accept call, and,
when the accept succeeds, invokes `_onconnection` exactly once with
`(0, client object)`; when the accept fails it returns without invoking
`_onconnection`. -/
theorem OnConnection_notifies_unless_accept_fails (env : Env) (handle : uv_stream_t)
    (status : Int) (w : World) (tcp_wrap : TcpWrap)
    (hdata : handle.data = some tcp_wrap)
    (haddr : tcp_wrap.tcp_handle = handle.addr)
    (hobj : tcp_wrap.jholder.IsObject = true)
    (hfun : (env.GetProperty tcp_wrap.jholder "_onconnection").IsFunction = true) :
    (status ≠ 0 →
      OnConnection env handle status w =
        (.ok (),
         { w with trace := w.trace ++
            [.MakeCallback (env.GetProperty tcp_wrap.jholder "_onconnection")
              tcp_wrap.jholder [.number status]] })) ∧
    (status = 0 →
      (env.GetProperty tcp_wrap.jholder "_createTCP").IsFunction = true →
      (env.CallResult (env.GetProperty tcp_wrap.jholder "_createTCP")
        tcp_wrap.jholder []).IsObject = true →
      (env.uv_accept handle.addr (w.next + 1) = 0 →
        OnConnection env handle status w =
          (.ok (),
           { w with
             next := w.next + 1
             wraps := { _handle := w.next + 1,
                        jnative := env.CallResult (env.GetProperty tcp_wrap.jholder "_createTCP")
                          tcp_wrap.jholder [],
                        jholder := .null } :: w.wraps
             trace := w.trace ++
               [.Call (env.GetProperty tcp_wrap.jholder "_createTCP") tcp_wrap.jholder [],
                .newTcpWrap { _handle := w.next + 1,
                              jnative := env.CallResult
                                (env.GetProperty tcp_wrap.jholder "_createTCP") tcp_wrap.jholder [],
                              jholder := .null },
                .uv_tcp_init (w.next + 1),
                .uv_accept handle.addr (w.next + 1),
                .MakeCallback (env.GetProperty tcp_wrap.jholder "_onconnection")
                  tcp_wrap.jholder
                  [.number 0, env.CallResult (env.GetProperty tcp_wrap.jholder "_createTCP")
                    tcp_wrap.jholder []]] })) ∧
      (env.uv_accept handle.addr (w.next + 1) ≠ 0 →
        OnConnection env handle status w =
          (.ok (),
           { w with
             next := w.next + 1
             wraps := { _handle := w.next + 1,
                        jnative := env.CallResult (env.GetProperty tcp_wrap.jholder "_createTCP")
                          tcp_wrap.jholder [],
                        jholder := .null } :: w.wraps
             trace := w.trace ++
               [.Call (env.GetProperty tcp_wrap.jholder "_createTCP") tcp_wrap.jholder [],
                .newTcpWrap { _handle := w.next + 1,
                              jnative := env.CallResult
                                (env.GetProperty tcp_wrap.jholder "_createTCP") tcp_wrap.jholder [],
                              jholder := .null },
                .uv_tcp_init (w.next + 1),
                .uv_accept handle.addr (w.next + 1)] }))) := by
  have haddr : tcp_wrap._handle = handle.addr := haddr
  refine ⟨?_, ?_⟩
  · intro hs
    simp [OnConnection, hdata, deref, IOTJS_ASSERT, haddr, hobj, hfun, hs, MakeCallback,
      emit, JVal.Int, TcpWrap.tcp_handle]
  · intro hs hcreate hclient
    subst hs
    refine ⟨?_, ?_⟩
    · intro ha
      simp [OnConnection, hdata, deref, IOTJS_ASSERT, haddr, hobj, hfun, MakeCallback,
        emit, JVal.Int, hcreate, JObject.Call, JArgList.Empty, hclient, newTcpWrap, fresh,
        uv_accept, TcpWrap.tcp_handle, ha, JObject.Null]
    · intro ha
      simp [OnConnection, hdata, deref, IOTJS_ASSERT, haddr, hobj, hfun, MakeCallback,
        emit, JVal.Int, hcreate, JObject.Call, JArgList.Empty, hclient, newTcpWrap, fresh,
        uv_accept, TcpWrap.tcp_handle, ha, JObject.Null]

/-- Witness for C4, amended: a connection event with the error status `-24`
on the sample server. -/
theorem OnConnection_notifies_unless_accept_fails_witness :
    OnConnection sampleEnv sampleHandle (-24) sampleWorld =
      (.ok (),
       { sampleWorld with trace := sampleWorld.trace ++
          [.MakeCallback (sampleEnv.GetProperty sampleWrap.jholder "_onconnection")
            sampleWrap.jholder [.number (-24)]] }) :=
  (OnConnection_notifies_unless_accept_fails sampleEnv sampleHandle (-24) sampleWorld
    sampleWrap rfl rfl rfl rfl).1 (by decide)

/-- A positive read delivery with a live scratch block allocated earlier: the
complete outcome of the Deliver handler. -/
theorem OnRead_positive (env : Env) (handle : uv_stream_t) (nread : Int) (buf : uv_buf_t)
    (w : World) (tcp_wrap : TcpWrap) (bytes : List Nat)
    (hdata : handle.data = some tcp_wrap)
    (hobj : tcp_wrap.jholder.IsObject = true)
    (hfun : (env.GetProperty tcp_wrap.jholder "_onread").IsFunction = true)
    (hpos : 0 < nread)
    (hmem : w.mem.lookup buf.base = some bytes)
    (hold : buf.base ≤ w.next) :
    OnRead env handle nread buf w =
      (.ok (),
       { w with
         next := w.next + 1
         mem := (w.next + 1, bytes.take nread.toNat ++
                   List.replicate (nread.toNat - min nread.toNat bytes.length) 0) ::
                 w.mem.filter (fun p => p.1 != w.next + 1)
         jbuffers := (.object (w.next + 1), { buffer := w.next + 1, length := nread.toNat }) ::
                       w.jbuffers
         trace := w.trace ++
           [.CreateBuffer nread.toNat (.object (w.next + 1)),
            .Copy { buffer := w.next + 1, length := nread.toNat } buf.base nread.toNat,
            .MakeCallback (env.GetProperty tcp_wrap.jholder "_onread") tcp_wrap.jholder
              [.number nread, .object (w.next + 1)]] }) := by
  have hn : ¬ nread ≤ 0 := not_le.mpr hpos
  have hne : (buf.base == w.next + 1) = false := by
    simp only [beq_eq_false_iff_ne, ne_eq]
    omega
  simp [OnRead, hdata, deref, IOTJS_ASSERT, hobj, hfun, hn, CreateBuffer, fresh, emit,
    Buffer.FromJBuffer, List.lookup, Buffer.Copy, hne, hmem, MakeCallback, JVal.Int]

/-- A zero or negative read delivery whose scratch buffer is null or a live
block: the complete outcome of the Deliver handler. -/
theorem OnRead_nonpositive (env : Env) (handle : uv_stream_t) (nread : Int) (buf : uv_buf_t)
    (w : World) (tcp_wrap : TcpWrap)
    (hdata : handle.data = some tcp_wrap)
    (hobj : tcp_wrap.jholder.IsObject = true)
    (hfun : (env.GetProperty tcp_wrap.jholder "_onread").IsFunction = true)
    (hle : nread ≤ 0)
    (hvalid : buf.base = NULL ∨ (w.mem.lookup buf.base).isSome = true) :
    OnRead env handle nread buf w =
      (.ok (),
       { w with
         mem := if buf.base = NULL then w.mem else w.mem.filter (fun p => p.1 != buf.base)
         trace := w.trace ++
           (if buf.base = NULL then [] else [.ReleaseBuffer buf.base]) ++
           (if nread < 0 then
              [.MakeCallback (env.GetProperty tcp_wrap.jholder "_onread") tcp_wrap.jholder
                [.number nread]]
            else []) }) := by
  by_cases hb : buf.base = NULL
  · by_cases hneg : nread < 0
    · simp [OnRead, hdata, deref, IOTJS_ASSERT, hobj, hfun, hle, hb, hneg, MakeCallback,
        emit, JVal.Int]
    · simp [OnRead, hdata, deref, IOTJS_ASSERT, hobj, hfun, hle, hb, hneg, MakeCallback,
        emit, JVal.Int]
  · have hsome : (w.mem.lookup buf.base).isSome = true := hvalid.resolve_left hb
    obtain ⟨bytes, hbytes⟩ := Option.isSome_iff_exists.mp hsome
    by_cases hneg : nread < 0
    · simp [OnRead, hdata, deref, IOTJS_ASSERT, hobj, hfun, hle, hb, hneg, MakeCallback,
        emit, JVal.Int, ReleaseBuffer, hbytes]
    · simp [OnRead, hdata, deref, IOTJS_ASSERT, hobj, hfun, hle, hb, hneg, MakeCallback,
        emit, JVal.Int, ReleaseBuffer, hbytes]

/-- C2. A read delivery with byte count `nread` on a handle whose holder is
an object with a function `_onread`, the scratch buffer being null or a live
block. If `nread > 0` and the scratch block holds at least `nread` bytes, the
handler does exactly three things, in this order: it creates a script buffer
of length `nread`, copies `nread` bytes from the scratch block into it, and
invokes `_onread` with the holder as context and arguments `(nread, buffer)`.
The invocation is the last step and happens in a world in which the buffer
already exists, was registered by this delivery with length exactly `nread`,
and holds the first `nread` bytes of the scratch block; it is the only script
invocation. If `nread = 0`, the handler at most releases the scratch block
and makes no script invocation. If `nread < 0`, it at most releases the
scratch block and then makes exactly one script invocation: `_onread` with
the holder as context and the single argument `nread`. -/
theorem OnRead_invokes_onread (env : Env) (handle : uv_stream_t) (nread : Int)
    (buf : uv_buf_t) (w : World) (tcp_wrap : TcpWrap)
    (hdata : handle.data = some tcp_wrap)
    (hobj : tcp_wrap.jholder.IsObject = true)
    (hfun : (env.GetProperty tcp_wrap.jholder "_onread").IsFunction = true)
    (hvalid : buf.base = NULL ∨ (w.mem.lookup buf.base).isSome = true) :
    (0 < nread →
      ∀ bytes, w.mem.lookup buf.base = some bytes → buf.base ≤ w.next →
        nread.toNat ≤ bytes.length →
        (OnRead env handle nread buf w).1 = .ok () ∧
        (OnRead env handle nread buf w).2.eventsSince w =
          [.CreateBuffer nread.toNat (.object (w.next + 1)),
           .Copy { buffer := w.next + 1, length := nread.toNat } buf.base nread.toNat,
           .MakeCallback (env.GetProperty tcp_wrap.jholder "_onread") tcp_wrap.jholder
             [.number nread, .object (w.next + 1)]] ∧
        (∃ w1 : World,
          w1.trace = w.trace ++
            [.CreateBuffer nread.toNat (.object (w.next + 1)),
             .Copy { buffer := w.next + 1, length := nread.toNat } buf.base nread.toNat] ∧
          w1.jbuffers =
            (.object (w.next + 1), { buffer := w.next + 1, length := nread.toNat }) ::
              w.jbuffers ∧
          w1.bytesOf (.object (w.next + 1)) = some (bytes.take nread.toNat) ∧
          OnRead env handle nread buf w =
            MakeCallback (env.GetProperty tcp_wrap.jholder "_onread") tcp_wrap.jholder
              [.number nread, .object (w.next + 1)] w1) ∧
        scriptCalls ((OnRead env handle nread buf w).2.eventsSince w) =
          [.MakeCallback (env.GetProperty tcp_wrap.jholder "_onread") tcp_wrap.jholder
            [.number nread, .object (w.next + 1)]] ∧
        Event.CreateBuffer nread.toNat (.object (w.next + 1)) ∈
          (OnRead env handle nread buf w).2.eventsSince w ∧
        (OnRead env handle nread buf w).2.bytesOf (.object (w.next + 1)) =
          some (bytes.take nread.toNat) ∧
        ((bytes.take nread.toNat).length : Int) = nread) ∧
    (nread = 0 →
      (OnRead env handle nread buf w).1 = .ok () ∧
      (OnRead env handle nread buf w).2.eventsSince w =
        (if buf.base = NULL then [] else [.ReleaseBuffer buf.base]) ∧
      scriptCalls ((OnRead env handle nread buf w).2.eventsSince w) = []) ∧
    (nread < 0 →
      (OnRead env handle nread buf w).1 = .ok () ∧
      (OnRead env handle nread buf w).2.eventsSince w =
        (if buf.base = NULL then [] else [.ReleaseBuffer buf.base]) ++
          [.MakeCallback (env.GetProperty tcp_wrap.jholder "_onread") tcp_wrap.jholder
            [.number nread]] ∧
      scriptCalls ((OnRead env handle nread buf w).2.eventsSince w) =
        [.MakeCallback (env.GetProperty tcp_wrap.jholder "_onread") tcp_wrap.jholder
          [.number nread]]) := by
  refine ⟨?_, ?_, ?_⟩
  · intro hpos bytes hmem hold hlen
    rw [OnRead_positive env handle nread buf w tcp_wrap bytes hdata hobj hfun hpos hmem hold]
    have hmin : min nread.toNat bytes.length = nread.toNat := Nat.min_eq_left hlen
    have hcast : (nread.toNat : Int) = nread := Int.toNat_of_nonneg (le_of_lt hpos)
    refine ⟨rfl, ?_, ?_, ?_, ?_, ?_, ?_⟩
    · simp [World.eventsSince]
    · refine ⟨{ w with
          next := w.next + 1
          mem := (w.next + 1, bytes.take nread.toNat ++
                    List.replicate (nread.toNat - min nread.toNat bytes.length) 0) ::
                  w.mem.filter (fun p => p.1 != w.next + 1)
          jbuffers := (.object (w.next + 1), { buffer := w.next + 1, length := nread.toNat }) ::
                        w.jbuffers
          trace := w.trace ++
            [.CreateBuffer nread.toNat (.object (w.next + 1)),
             .Copy { buffer := w.next + 1, length := nread.toNat } buf.base nread.toNat] },
        rfl, rfl, ?_, ?_⟩
      · simp [World.bytesOf, List.lookup, hmin, hlen]
      · simp [MakeCallback, emit]
    · simp [World.eventsSince, scriptCalls]
    · simp [World.eventsSince]
    · simp [World.bytesOf, List.lookup, hmin, hlen]
    · simp [hlen, hcast]
  · intro hz
    rw [OnRead_nonpositive env handle nread buf w tcp_wrap hdata hobj hfun (le_of_eq hz) hvalid]
    by_cases hb : buf.base = NULL <;> simp [World.eventsSince, scriptCalls, hz, hb]
  · intro hneg
    rw [OnRead_nonpositive env handle nread buf w tcp_wrap hdata hobj hfun (le_of_lt hneg) hvalid]
    by_cases hb : buf.base = NULL <;> simp [World.eventsSince, scriptCalls, hneg, hb]

/-- Witness for C2: three bytes delivered into the sample scratch block. -/
theorem OnRead_invokes_onread_witness :
    (OnRead sampleEnv sampleHandle 3 ⟨150, 4⟩ sampleWorld).1 = .ok () ∧
    (OnRead sampleEnv sampleHandle 3 ⟨150, 4⟩ sampleWorld).2.eventsSince sampleWorld =
      [.CreateBuffer 3 (.object 201),
       .Copy { buffer := 201, length := 3 } 150 3,
       .MakeCallback (sampleEnv.GetProperty sampleWrap.jholder "_onread") sampleWrap.jholder
         [.number 3, .object 201]] ∧
    (∃ w1 : World,
      w1.trace = sampleWorld.trace ++
        [.CreateBuffer 3 (.object 201), .Copy { buffer := 201, length := 3 } 150 3] ∧
      w1.jbuffers = (.object 201, { buffer := 201, length := 3 }) :: sampleWorld.jbuffers ∧
      w1.bytesOf (.object 201) = some [7, 8, 9] ∧
      OnRead sampleEnv sampleHandle 3 ⟨150, 4⟩ sampleWorld =
        MakeCallback (sampleEnv.GetProperty sampleWrap.jholder "_onread") sampleWrap.jholder
          [.number 3, .object 201] w1) ∧
    scriptCalls ((OnRead sampleEnv sampleHandle 3 ⟨150, 4⟩ sampleWorld).2.eventsSince
        sampleWorld) =
      [.MakeCallback (sampleEnv.GetProperty sampleWrap.jholder "_onread") sampleWrap.jholder
        [.number 3, .object 201]] ∧
    Event.CreateBuffer 3 (.object 201) ∈
      (OnRead sampleEnv sampleHandle 3 ⟨150, 4⟩ sampleWorld).2.eventsSince sampleWorld ∧
    (OnRead sampleEnv sampleHandle 3 ⟨150, 4⟩ sampleWorld).2.bytesOf (.object 201) =
      some [7, 8, 9] ∧
    ((([7, 8, 9, 10] : List Nat).take 3).length : Int) = 3 :=
  (OnRead_invokes_onread sampleEnv sampleHandle 3 ⟨150, 4⟩ sampleWorld sampleWrap
    rfl rfl rfl (Or.inr rfl)).1 (by decide) [7, 8, 9, 10] rfl (by decide) (by decide)

/-- C8, the code at the failing input. Three bytes delivered into the live
sample scratch block at address 150: the handler finishes normally, issues no
release at all, and the scratch block is still live when it returns. The same
block delivered with count 0 is released exactly once. -/
theorem OnRead_positive_count_never_releases_scratch :
    (OnRead sampleEnv sampleHandle 3 ⟨150, 4⟩ sampleWorld).1 = .ok () ∧
    releases ((OnRead sampleEnv sampleHandle 3 ⟨150, 4⟩ sampleWorld).2.eventsSince
      sampleWorld) = [] ∧
    (OnRead sampleEnv sampleHandle 3 ⟨150, 4⟩ sampleWorld).2.mem.lookup 150 =
      some [7, 8, 9, 10] ∧
    releases ((OnRead sampleEnv sampleHandle 0 ⟨150, 4⟩ sampleWorld).2.eventsSince
      sampleWorld) = [.ReleaseBuffer 150] ∧
    (OnRead sampleEnv sampleHandle 0 ⟨150, 4⟩ sampleWorld).2.mem.lookup 150 = none := by
  refine ⟨rfl, rfl, rfl, rfl, rfl⟩

/-- C6, the code at the failing input. A write on the sample socket that the
reactor rejects synchronously with `-9`: Write returns `-9`, the request it
created at address 201 is never destroyed and is still live on return. The
sibling Connect, rejected the same way, destroys its request. -/
theorem Write_rejected_request_stays_live :
    Write rejectingEnv ⟨.object 1, [.object 170, .function 6]⟩ sampleWorld =
      (.ok (.number (-9)),
       { sampleWorld with
         next := 201
         reqs := (201, .function 6) :: sampleWorld.reqs
         trace :=
           [.newWriteReqWrap 201 (.function 6),
            .uv_write 201 100 [{ base := 170, len := 3 }],
            .Dispatched 201] }) ∧
    (Write rejectingEnv ⟨.object 1, [.object 170, .function 6]⟩ sampleWorld).2.live 201 = true ∧
    deletions ((Write rejectingEnv ⟨.object 1, [.object 170, .function 6]⟩
      sampleWorld).2.eventsSince sampleWorld) = [] ∧
    deletions ((Connect rejectingEnv ⟨.object 1, [.string "127.0.0.1", .number 8080, .function 6]⟩
      sampleWorld).2.eventsSince sampleWorld) = [.deleteReqWrap 201] := by
  refine ⟨rfl, rfl, rfl, rfl⟩

end iotjs
